import Mathlib

/-!
Verification of the MediaSearcher multi-provider media search client.

This file gives a shallow embedding of the repository:
  * `src/MediaSearcher/strategies/strategy.py`  (the per-provider search strategies),
  * `src/MediaSearcher/factories/strategy_factory.py`  (the per-provider factories),
  * `src/MediaSearcher/client.py`  (the `SearchClient` dispatcher),
and proves the observable-contract properties stated in the specification.

Modelling conventions:
  * The network is an oracle `Net : HttpRequest → NetOutcome`; an `HttpRequest`
    records the arguments handed to the HTTP library (`requests.get` /
    `aiohttp.ClientSession.get`): URL, query-parameter mapping and headers.
    Wire-level encoding of the query string is below the abstraction level.
  * Each operation returns, besides its Python return value, the list of
    observable effects it performed (HTTP GETs issued and diagnostics printed),
    in order.  For the asynchronous client, effects are organised in a `Sched`
    tree whose `par` node records that two tasks were scheduled concurrently
    with `asyncio.create_task` and joined with `asyncio.gather`.
  * Raised Python exceptions that escape to the caller are modelled with
    `Except PyError`; the strategies themselves return a plain value because
    their `try/except` blocks catch every `Exception`.
  * `requests.Response.raise_for_status` raises exactly for status codes in
    `[400, 600)`; `aiohttp.ClientResponse.raise_for_status` raises for
    status codes `≥ 400`.  A response body is `some j` when `.json()` parses
    it to `j` and `none` when parsing fails (malformed body).
  * `aiohttp` rejects a `None` query-parameter value with a `TypeError`
    before any request is sent; `QVal.none_` models the Python `None` that
    `params.get('query')` produces when the key is absent.
-/

/-- Parsed JSON values, the result of `response.json()`. -/
inductive Json
  | null
  | bool (b : Bool)
  | num (n : Int)
  | str (s : String)
  | arr (elems : List Json)
  | obj (fields : List (String × Json))

/-- A value of an outgoing query parameter.  Python lets the strategies put a
string, a whole `dict` (the Pixabay blocking `search` passes the caller's
mapping as the value of `q`), or `None` (absent `query` key in the Pixabay
`asearch`) in this position. -/
inductive QVal
  | s (v : String)
  | m (v : List (String × String))
  | none_
deriving DecidableEq

/-- Caller-supplied search parameters: a string-keyed mapping. -/
abbrev SearchParams := List (String × String)

/-- The arguments handed to the HTTP library for one GET. -/
structure HttpRequest where
  url : String
  query : List (String × QVal)
  headers : List (String × String)
deriving DecidableEq

/-- What the network does with one request: a response with a status code and
a body-parse outcome, or a transport-level error raised by the library. -/
inductive NetOutcome
  | resp (status : Nat) (body : Option Json)
  | err (msg : String)

/-- The network oracle. -/
abbrev Net := HttpRequest → NetOutcome

/-- Python values returned by the search entry points: a parsed JSON body,
the `None` failure sentinel, a bare string (the Unsplash video stub), or a
dict (the hybrid `{'images': ..., 'videos': ...}` record). -/
inductive PyObj
  | json (j : Json)
  | pyNone
  | pyStr (s : String)
  | dict (fields : List (String × PyObj))

/-- Python exceptions that escape to the caller. -/
inductive PyError
  | valueError (msg : String)
  | attributeError (msg : String)
deriving DecidableEq

/-- Observable effects of one call: an HTTP GET issued, or a diagnostic
printed by an `except` handler. -/
inductive Effect
  | get (req : HttpRequest)
  | printed (msg : String)
deriving DecidableEq

/-- The HTTP GETs contained in an effect trace, in order. -/
def sentRequests (tr : List Effect) : List HttpRequest :=
  tr.filterMap fun e =>
    match e with
    | .get r => some r
    | .printed _ => none

/-- Total network latency of a sequentially executed effect trace: the waits
of its GETs add up. -/
def traceDuration (lat : HttpRequest → Nat) (tr : List Effect) : Nat :=
  ((sentRequests tr).map lat).sum

/-- True on the Python `None` query value. -/
def QVal.isNone : QVal → Bool
  | .none_ => true
  | _ => false

/-- `aiohttp` validates query values before issuing the request. -/
def HttpRequest.hasNoneParam (req : HttpRequest) : Bool :=
  req.query.any fun p => p.2.isNone

/-- The shared shape of every blocking strategy body
(`requests.get`, `raise_for_status`, `.json()` inside `try/except`):
HTTP errors (status 400–599) print `HTTP Error: ...` and return `None`,
any other exception prints `Error: ...` and returns `None`. -/
def syncGet (net : Net) (req : HttpRequest) : List Effect × PyObj :=
  match net req with
  | .err m => ([.get req, .printed ("Error: " ++ m)], .pyNone)
  | .resp s b =>
    if 400 ≤ s ∧ s < 600 then
      ([.get req, .printed ("HTTP Error: " ++ toString s)], .pyNone)
    else
      match b with
      | some j => ([.get req], .json j)
      | none => ([.get req, .printed "Error: malformed body"], .pyNone)

/-- The shared shape of every suspending strategy body
(`aiohttp` session GET, `raise_for_status`, `.json()` inside `try/except`):
a `None`-valued query parameter raises `TypeError` before the request is
sent; `aiohttp.ClientError` (transport failure or status `≥ 400`) prints
`Client Error: ...`; any other exception prints `Error: ...`; every failure
returns `None`. -/
def asyncGet (net : Net) (req : HttpRequest) : List Effect × PyObj :=
  if req.hasNoneParam then
    ([.printed "Error: Invalid variable type"], .pyNone)
  else
    match net req with
    | .err m => ([.get req, .printed ("Client Error: " ++ m)], .pyNone)
    | .resp s b =>
      if 400 ≤ s then
        ([.get req, .printed ("Client Error: " ++ toString s)], .pyNone)
      else
        match b with
        | some j => ([.get req], .json j)
        | none => ([.get req, .printed "Error: malformed body"], .pyNone)

/-- `dict.get` of Python, as used by `params.get('query')`. -/
def qvalOfGet : Option String → QVal
  | some v => QVal.s v
  | none => QVal.none_

namespace PixabayImageSearchStrategy

def API_URL : String := "https://pixabay.com/api/"

/-- `PixabayImageSearchStrategy.search`: builds `{'key': api_key, 'q': query}`
where `query` is the whole argument the client passed (the caller's params
mapping), and issues one GET with no headers. -/
def search (api_key : String) (net : Net) (query : SearchParams) :
    List Effect × PyObj :=
  syncGet net
    { url := API_URL
      query := [("key", QVal.s api_key), ("q", QVal.m query)]
      headers := [] }

/-- `PixabayImageSearchStrategy.asearch`: extracts `params.get('query')` and
sends `{'key': api_key, 'q': query}` with no headers. -/
def asearch (api_key : String) (net : Net) (params : SearchParams) :
    List Effect × PyObj :=
  asyncGet net
    { url := API_URL
      query := [("key", QVal.s api_key), ("q", qvalOfGet (params.lookup "query"))]
      headers := [] }

end PixabayImageSearchStrategy

namespace PixabayVideoSearchStrategy

def API_URL : String := "https://pixabay.com/api/videos/"

/-- `PixabayVideoSearchStrategy.search`: same request shape as the Pixabay
image strategy, against the video endpoint. -/
def search (api_key : String) (net : Net) (query : SearchParams) :
    List Effect × PyObj :=
  syncGet net
    { url := API_URL
      query := [("key", QVal.s api_key), ("q", QVal.m query)]
      headers := [] }

/-- `PixabayVideoSearchStrategy.asearch`: same request shape as the Pixabay
image strategy, against the video endpoint. -/
def asearch (api_key : String) (net : Net) (params : SearchParams) :
    List Effect × PyObj :=
  asyncGet net
    { url := API_URL
      query := [("key", QVal.s api_key), ("q", qvalOfGet (params.lookup "query"))]
      headers := [] }

end PixabayVideoSearchStrategy

namespace UnsplashImageSearchStrategy

def API_URL : String := "https://api.unsplash.com/search/photos"

/-- `UnsplashImageSearchStrategy.search`: passes the caller's params mapping
through unchanged and authenticates with `Authorization: Client-ID <key>`. -/
def search (api_key : String) (net : Net) (params : SearchParams) :
    List Effect × PyObj :=
  syncGet net
    { url := API_URL
      query := params.map fun p => (p.1, QVal.s p.2)
      headers := [("Authorization", "Client-ID " ++ api_key)] }

/-- `UnsplashImageSearchStrategy.asearch`: same request shape as the blocking
path. -/
def asearch (api_key : String) (net : Net) (params : SearchParams) :
    List Effect × PyObj :=
  asyncGet net
    { url := API_URL
      query := params.map fun p => (p.1, QVal.s p.2)
      headers := [("Authorization", "Client-ID " ++ api_key)] }

end UnsplashImageSearchStrategy

namespace UnsplashVideoSearchStrategy

def API_URL : String := "https://api.unsplash.com/search/videos"

/-- `UnsplashVideoSearchStrategy.search`: intentional stub, returns a fixed
string and touches the network oracle in no way. -/
def search (_api_key : String) (_net : Net) (_params : SearchParams) :
    List Effect × PyObj :=
  ([], .pyStr "Unsplash video search not implemented yet.")

/-- `UnsplashVideoSearchStrategy.asearch`: intentional stub, identical to the
blocking path. -/
def asearch (_api_key : String) (_net : Net) (_params : SearchParams) :
    List Effect × PyObj :=
  ([], .pyStr "Unsplash video search not implemented yet.")

end UnsplashVideoSearchStrategy

namespace PexelsImageSearchStrategy

def API_URL : String := "https://api.pexels.com/v1/search"

/-- `PexelsImageSearchStrategy.search`: passes the caller's params mapping
through unchanged and sends the raw key as the `Authorization` header. -/
def search (api_key : String) (net : Net) (params : SearchParams) :
    List Effect × PyObj :=
  syncGet net
    { url := API_URL
      query := params.map fun p => (p.1, QVal.s p.2)
      headers := [("Authorization", api_key)] }

/-- `PexelsImageSearchStrategy.asearch`: same request shape as the blocking
path. -/
def asearch (api_key : String) (net : Net) (params : SearchParams) :
    List Effect × PyObj :=
  asyncGet net
    { url := API_URL
      query := params.map fun p => (p.1, QVal.s p.2)
      headers := [("Authorization", api_key)] }

end PexelsImageSearchStrategy

namespace PexelsVideoSearchStrategy

def API_URL : String := "https://api.pexels.com/videos/search"

/-- `PexelsVideoSearchStrategy.search`: same request shape as the Pexels
image strategy, against the video endpoint. -/
def search (api_key : String) (net : Net) (params : SearchParams) :
    List Effect × PyObj :=
  syncGet net
    { url := API_URL
      query := params.map fun p => (p.1, QVal.s p.2)
      headers := [("Authorization", api_key)] }

/-- `PexelsVideoSearchStrategy.asearch`: same request shape as the blocking
path. -/
def asearch (api_key : String) (net : Net) (params : SearchParams) :
    List Effect × PyObj :=
  asyncGet net
    { url := API_URL
      query := params.map fun p => (p.1, QVal.s p.2)
      headers := [("Authorization", api_key)] }

end PexelsVideoSearchStrategy

/-- The concrete strategy objects the factories construct: each carries the
API key injected at construction.  The two placeholder strategy classes
(`EngineBasedSearchStrategy`, `ModelGeneratedSearchStrategy`) are never
produced by a factory and carry no behaviour beyond `NotImplementedError`. -/
inductive Strategy
  | pixabayImage (api_key : String)
  | pixabayVideo (api_key : String)
  | unsplashImage (api_key : String)
  | unsplashVideo (api_key : String)
  | pexelsImage (api_key : String)
  | pexelsVideo (api_key : String)
deriving DecidableEq

/-- Virtual dispatch of the blocking `search` method. -/
def Strategy.search : Strategy → Net → SearchParams → List Effect × PyObj
  | .pixabayImage k => PixabayImageSearchStrategy.search k
  | .pixabayVideo k => PixabayVideoSearchStrategy.search k
  | .unsplashImage k => UnsplashImageSearchStrategy.search k
  | .unsplashVideo k => UnsplashVideoSearchStrategy.search k
  | .pexelsImage k => PexelsImageSearchStrategy.search k
  | .pexelsVideo k => PexelsVideoSearchStrategy.search k

/-- Virtual dispatch of the suspending `asearch` method. -/
def Strategy.asearch : Strategy → Net → SearchParams → List Effect × PyObj
  | .pixabayImage k => PixabayImageSearchStrategy.asearch k
  | .pixabayVideo k => PixabayVideoSearchStrategy.asearch k
  | .unsplashImage k => UnsplashImageSearchStrategy.asearch k
  | .unsplashVideo k => UnsplashVideoSearchStrategy.asearch k
  | .pexelsImage k => PexelsImageSearchStrategy.asearch k
  | .pexelsVideo k => PexelsVideoSearchStrategy.asearch k

/-- The five strategies with a real implementation (all but the Unsplash
video stub). -/
def Strategy.implemented : Strategy → Prop
  | .unsplashVideo _ => False
  | _ => True

namespace PixabayFactory

/-- `PixabayFactory.get_search_strategy`. -/
def get_search_strategy (api_key : String) (content_type : String) :
    Except PyError Strategy :=
  if content_type = "image" then .ok (.pixabayImage api_key)
  else if content_type = "video" then .ok (.pixabayVideo api_key)
  else .error (.valueError "Invalid content type for Pixabay")

end PixabayFactory

namespace UnsplashFactory

/-- `UnsplashFactory.get_search_strategy`. -/
def get_search_strategy (api_key : String) (content_type : String) :
    Except PyError Strategy :=
  if content_type = "image" then .ok (.unsplashImage api_key)
  else if content_type = "video" then .ok (.unsplashVideo api_key)
  else .error (.valueError "Invalid content type for Unsplash")

end UnsplashFactory

namespace PexelsFactory

/-- `PexelsFactory.get_search_strategy`. -/
def get_search_strategy (api_key : String) (content_type : String) :
    Except PyError Strategy :=
  if content_type = "image" then .ok (.pexelsImage api_key)
  else if content_type = "video" then .ok (.pexelsVideo api_key)
  else .error (.valueError "Invalid content type for Pexels")

end PexelsFactory

/-- The `SearchClient` state after `__init__`: Python attributes that were
never assigned (unknown provider) are `none`, and touching them raises
`AttributeError`. -/
structure SearchClient where
  _api_key : String
  _image_searcher : Option Strategy
  _video_searcher : Option Strategy
deriving DecidableEq

/-- `SearchClient.__init__`: resolves both strategies through the provider's
factory; an unrecognised provider assigns neither searcher attribute.
Construction consults no network oracle. -/
def SearchClient.init (provider : String) (api_key : String) :
    Except PyError SearchClient :=
  if provider = "pixabay" then do
    let img ← PixabayFactory.get_search_strategy api_key "image"
    let vid ← PixabayFactory.get_search_strategy api_key "video"
    return { _api_key := api_key, _image_searcher := some img, _video_searcher := some vid }
  else if provider = "unsplash" then do
    let img ← UnsplashFactory.get_search_strategy api_key "image"
    let vid ← UnsplashFactory.get_search_strategy api_key "video"
    return { _api_key := api_key, _image_searcher := some img, _video_searcher := some vid }
  else if provider = "pexels" then do
    let img ← PexelsFactory.get_search_strategy api_key "image"
    let vid ← PexelsFactory.get_search_strategy api_key "video"
    return { _api_key := api_key, _image_searcher := some img, _video_searcher := some vid }
  else
    return { _api_key := api_key, _image_searcher := none, _video_searcher := none }

/-- The `self._image_searcher.search(params)` line of `SearchClient.search`.
Missing attribute raises `AttributeError`; otherwise the strategy's result is
returned (strategies never raise). -/
def SearchClient.searchImage (c : SearchClient) (net : Net) (params : SearchParams) :
    List Effect × Except PyError PyObj :=
  match c._image_searcher with
  | some s => ((s.search net params).1, .ok (s.search net params).2)
  | none => ([], .error (.attributeError "_image_searcher"))

/-- The `self._video_searcher.search(params)` line of `SearchClient.search`. -/
def SearchClient.searchVideo (c : SearchClient) (net : Net) (params : SearchParams) :
    List Effect × Except PyError PyObj :=
  match c._video_searcher with
  | some s => ((s.search net params).1, .ok (s.search net params).2)
  | none => ([], .error (.attributeError "_video_searcher"))

/-- `SearchClient.search`: dispatch on the content-type tag; the hybrid
branch is the source's `self.search(params, 'image')` followed by
`self.search(params, 'video')` (those recursive calls reduce to the image
and video branches, inlined here), propagating a raised error as Python
does; any other tag raises `ValueError`. -/
def SearchClient.search (c : SearchClient) (net : Net) (params : SearchParams)
    (content_type : String) : List Effect × Except PyError PyObj :=
  if content_type = "image" then c.searchImage net params
  else if content_type = "video" then c.searchVideo net params
  else if content_type = "hybrid" then
    match c.searchImage net params with
    | (tr1, .error e) => (tr1, .error e)
    | (tr1, .ok images) =>
      match c.searchVideo net params with
      | (tr2, .error e) => (tr1 ++ tr2, .error e)
      | (tr2, .ok videos) =>
        (tr1 ++ tr2, .ok (.dict [("images", images), ("videos", videos)]))
  else ([], .error (.valueError "Invalid content type"))

/-- Effect structure of one asynchronous call: a `leaf` is the sequential
trace of a single task; `par a b` records two tasks scheduled with
`asyncio.create_task` and joined with `asyncio.gather`. -/
inductive Sched
  | leaf (tr : List Effect)
  | par (a b : Sched)
deriving DecidableEq

/-- The HTTP GETs issued anywhere in a schedule. -/
def Sched.requests : Sched → List HttpRequest
  | .leaf tr => sentRequests tr
  | .par a b => a.requests ++ b.requests

/-- Wall-clock duration of a schedule under the specification's cooperative
scheduling model (section 5 of the spec): suspension happens only at the
network boundary, so a single task's waits add up, while two gathered tasks
overlap their waits and finish at the later of the two. -/
def Sched.duration (lat : HttpRequest → Nat) : Sched → Nat
  | .leaf tr => traceDuration lat tr
  | .par a b => max (a.duration lat) (b.duration lat)

/-- The `await self._image_searcher.asearch(params)` line of
`SearchClient.asearch`. -/
def SearchClient.asearchImage (c : SearchClient) (net : Net) (params : SearchParams) :
    Sched × Except PyError PyObj :=
  match c._image_searcher with
  | some s => (.leaf (s.asearch net params).1, .ok (s.asearch net params).2)
  | none => (.leaf [], .error (.attributeError "_image_searcher"))

/-- The `await self._video_searcher.asearch(params)` line of
`SearchClient.asearch`. -/
def SearchClient.asearchVideo (c : SearchClient) (net : Net) (params : SearchParams) :
    Sched × Except PyError PyObj :=
  match c._video_searcher with
  | some s => (.leaf (s.asearch net params).1, .ok (s.asearch net params).2)
  | none => (.leaf [], .error (.attributeError "_video_searcher"))

/-- `SearchClient.asearch`: dispatch on the content-type tag; the hybrid
branch creates a task for `self.asearch(params, 'image')` and one for
`self.asearch(params, 'video')` (those recursive calls reduce to the image
and video branches, inlined here), gathers both, and combines the results;
`gather` re-raises the first failure; any other tag raises `ValueError`. -/
def SearchClient.asearch (c : SearchClient) (net : Net) (params : SearchParams)
    (content_type : String) : Sched × Except PyError PyObj :=
  if content_type = "image" then c.asearchImage net params
  else if content_type = "video" then c.asearchVideo net params
  else if content_type = "hybrid" then
    match c.asearchImage net params, c.asearchVideo net params with
    | (s1, .ok images), (s2, .ok videos) =>
      (.par s1 s2, .ok (.dict [("images", images), ("videos", videos)]))
    | (s1, .error e), (s2, _) => (.par s1 s2, .error e)
    | (s1, .ok _), (s2, .error e) => (.par s1 s2, .error e)
  else (.leaf [], .error (.valueError "Invalid content type"))

/-- A Pexels client constructed with key "K", the state `SearchClient.init
"pexels" "K"` produces; used to instantiate theorems at a concrete input. -/
def pexelsClientK : SearchClient :=
  { _api_key := "K"
    _image_searcher := some (.pexelsImage "K")
    _video_searcher := some (.pexelsVideo "K") }

/-- A network oracle answering every request with status 200 and an empty
JSON object; used to instantiate theorems at a concrete input. -/
def net200 : Net := fun _ => .resp 200 (some (Json.obj []))

/-- Formalisation of the specification sentence behind claim C2 exactly as
stated: against a network that always answers with one fixed status and
body, any non-2xx status makes every implemented strategy return the
failure sentinel, on both call paths. -/
def allNonTwoxxCollapse : Prop :=
  ∀ (st : Strategy), st.implemented →
    ∀ (s : Nat) (b : Option Json) (params : SearchParams),
      ¬ (200 ≤ s ∧ s < 300) →
        (st.search (fun _ => .resp s b) params).2 = .pyNone ∧
        (st.asearch (fun _ => .resp s b) params).2 = .pyNone

/-- Formalisation of the specification sentence behind claim C7 exactly as
stated: every entry of the caller's params mapping reaches the provider as
a query parameter of the request, unchanged except possibly for the
provider-specific rename of the "query" parameter. -/
def allParamsPassedThrough : Prop :=
  ∀ (st : Strategy), st.implemented →
    ∀ (params : SearchParams) (net : Net) (k v : String),
      (k, v) ∈ params →
        (∀ r ∈ sentRequests (st.search net params).1,
            (k, QVal.s v) ∈ r.query ∨ (k = "query" ∧ ("q", QVal.s v) ∈ r.query)) ∧
        (∀ r ∈ sentRequests (st.asearch net params).1,
            (k, QVal.s v) ∈ r.query ∨ (k = "query" ∧ ("q", QVal.s v) ∈ r.query))

theorem sentRequests_syncGet (net : Net) (req : HttpRequest) :
    sentRequests (syncGet net req).1 = [req] := by
  unfold syncGet
  cases net req with
  | err m => rfl
  | resp s b =>
    dsimp only
    split
    · rfl
    · cases b <;> rfl

theorem sentRequests_asyncGet (net : Net) (req : HttpRequest)
    (h : req.hasNoneParam = false) :
    sentRequests (asyncGet net req).1 = [req] := by
  unfold asyncGet
  rw [h]
  simp only [Bool.false_eq_true, if_false]
  cases net req with
  | err m => rfl
  | resp s b =>
    dsimp only
    split
    · rfl
    · cases b <;> rfl

theorem mem_sentRequests_asyncGet {r : HttpRequest} {net : Net} {req : HttpRequest}
    (h : r ∈ sentRequests (asyncGet net req).1) : r = req := by
  by_cases hg : req.hasNoneParam
  · unfold asyncGet at h
    rw [hg] at h
    simp [sentRequests] at h
  · rw [sentRequests_asyncGet net req (Bool.not_eq_true _ ▸ hg)] at h
    simpa using h

theorem mem_sentRequests_syncGet {r : HttpRequest} {net : Net} {req : HttpRequest}
    (h : r ∈ sentRequests (syncGet net req).1) : r = req := by
  rw [sentRequests_syncGet net req] at h
  simpa using h

theorem hasNoneParam_map_s (url : String) (params : SearchParams)
    (headers : List (String × String)) :
    HttpRequest.hasNoneParam
      { url := url, query := params.map fun p => (p.1, QVal.s p.2), headers := headers }
      = false := by
  simp only [HttpRequest.hasNoneParam]
  rw [List.any_eq_false]
  intro p hp
  rw [List.mem_map] at hp
  obtain ⟨q, -, rfl⟩ := hp
  simp [QVal.isNone]

theorem traceDuration_append (lat : HttpRequest → Nat) (t1 t2 : List Effect) :
    traceDuration lat (t1 ++ t2) = traceDuration lat t1 + traceDuration lat t2 := by
  unfold traceDuration sentRequests
  rw [List.filterMap_append, List.map_append, List.sum_append]

theorem init_pixabay (api_key : String) :
    SearchClient.init "pixabay" api_key
      = .ok { _api_key := api_key
              _image_searcher := some (.pixabayImage api_key)
              _video_searcher := some (.pixabayVideo api_key) } := rfl

theorem init_unsplash (api_key : String) :
    SearchClient.init "unsplash" api_key
      = .ok { _api_key := api_key
              _image_searcher := some (.unsplashImage api_key)
              _video_searcher := some (.unsplashVideo api_key) } := rfl

theorem init_pexels (api_key : String) :
    SearchClient.init "pexels" api_key
      = .ok { _api_key := api_key
              _image_searcher := some (.pexelsImage api_key)
              _video_searcher := some (.pexelsVideo api_key) } := rfl

theorem init_other (provider api_key : String) (h1 : provider ≠ "pixabay")
    (h2 : provider ≠ "unsplash") (h3 : provider ≠ "pexels") :
    SearchClient.init provider api_key
      = .ok { _api_key := api_key, _image_searcher := none, _video_searcher := none } := by
  unfold SearchClient.init
  rw [if_neg h1, if_neg h2, if_neg h3]
  rfl

theorem init_searchers (provider api_key : String) (c : SearchClient)
    (hc : SearchClient.init provider api_key = .ok c) :
    (∃ si sv, c._image_searcher = some si ∧ c._video_searcher = some sv) ∨
    (c._image_searcher = none ∧ c._video_searcher = none) := by
  by_cases h1 : provider = "pixabay"
  · subst h1
    rw [init_pixabay] at hc
    injection hc with hc
    subst hc
    exact .inl ⟨_, _, rfl, rfl⟩
  by_cases h2 : provider = "unsplash"
  · subst h2
    rw [init_unsplash] at hc
    injection hc with hc
    subst hc
    exact .inl ⟨_, _, rfl, rfl⟩
  by_cases h3 : provider = "pexels"
  · subst h3
    rw [init_pexels] at hc
    injection hc with hc
    subst hc
    exact .inl ⟨_, _, rfl, rfl⟩
  · rw [init_other provider api_key h1 h2 h3] at hc
    injection hc with hc
    subst hc
    exact .inr ⟨rfl, rfl⟩

theorem search_image_eq (c : SearchClient) (si : Strategy)
    (hi : c._image_searcher = some si) (net : Net) (params : SearchParams) :
    c.search net params "image"
      = ((si.search net params).1, .ok (si.search net params).2) := by
  unfold SearchClient.search SearchClient.searchImage
  rw [if_pos rfl, hi]

theorem search_video_eq (c : SearchClient) (sv : Strategy)
    (hv : c._video_searcher = some sv) (net : Net) (params : SearchParams) :
    c.search net params "video"
      = ((sv.search net params).1, .ok (sv.search net params).2) := by
  unfold SearchClient.search SearchClient.searchVideo
  rw [if_neg (by decide : ¬ ("video" = "image")), if_pos rfl, hv]

theorem search_hybrid_eq (c : SearchClient) (si sv : Strategy)
    (hi : c._image_searcher = some si) (hv : c._video_searcher = some sv)
    (net : Net) (params : SearchParams) :
    c.search net params "hybrid"
      = ((si.search net params).1 ++ (sv.search net params).1,
         .ok (.dict [("images", (si.search net params).2),
                     ("videos", (sv.search net params).2)])) := by
  unfold SearchClient.search SearchClient.searchImage SearchClient.searchVideo
  rw [if_neg (by decide : ¬ ("hybrid" = "image")),
      if_neg (by decide : ¬ ("hybrid" = "video")), if_pos rfl, hi, hv]

theorem asearch_image_eq (c : SearchClient) (si : Strategy)
    (hi : c._image_searcher = some si) (net : Net) (params : SearchParams) :
    c.asearch net params "image"
      = (.leaf (si.asearch net params).1, .ok (si.asearch net params).2) := by
  unfold SearchClient.asearch SearchClient.asearchImage
  rw [if_pos rfl, hi]

theorem asearch_video_eq (c : SearchClient) (sv : Strategy)
    (hv : c._video_searcher = some sv) (net : Net) (params : SearchParams) :
    c.asearch net params "video"
      = (.leaf (sv.asearch net params).1, .ok (sv.asearch net params).2) := by
  unfold SearchClient.asearch SearchClient.asearchVideo
  rw [if_neg (by decide : ¬ ("video" = "image")), if_pos rfl, hv]

theorem asearch_hybrid_eq (c : SearchClient) (si sv : Strategy)
    (hi : c._image_searcher = some si) (hv : c._video_searcher = some sv)
    (net : Net) (params : SearchParams) :
    c.asearch net params "hybrid"
      = (.par (.leaf (si.asearch net params).1) (.leaf (sv.asearch net params).1),
         .ok (.dict [("images", (si.asearch net params).2),
                     ("videos", (sv.asearch net params).2)])) := by
  unfold SearchClient.asearch SearchClient.asearchImage SearchClient.asearchVideo
  rw [if_neg (by decide : ¬ ("hybrid" = "image")),
      if_neg (by decide : ¬ ("hybrid" = "video")), if_pos rfl, hi, hv]

theorem search_image_none (c : SearchClient) (hi : c._image_searcher = none)
    (net : Net) (params : SearchParams) :
    c.search net params "image" = ([], .error (.attributeError "_image_searcher")) := by
  unfold SearchClient.search SearchClient.searchImage
  rw [if_pos rfl, hi]

theorem search_video_none (c : SearchClient) (hv : c._video_searcher = none)
    (net : Net) (params : SearchParams) :
    c.search net params "video" = ([], .error (.attributeError "_video_searcher")) := by
  unfold SearchClient.search SearchClient.searchVideo
  rw [if_neg (by decide : ¬ ("video" = "image")), if_pos rfl, hv]

theorem search_hybrid_none (c : SearchClient) (hi : c._image_searcher = none)
    (net : Net) (params : SearchParams) :
    c.search net params "hybrid" = ([], .error (.attributeError "_image_searcher")) := by
  unfold SearchClient.search SearchClient.searchImage
  rw [if_neg (by decide : ¬ ("hybrid" = "image")),
      if_neg (by decide : ¬ ("hybrid" = "video")), if_pos rfl, hi]

theorem asearch_image_none (c : SearchClient) (hi : c._image_searcher = none)
    (net : Net) (params : SearchParams) :
    c.asearch net params "image"
      = (.leaf [], .error (.attributeError "_image_searcher")) := by
  unfold SearchClient.asearch SearchClient.asearchImage
  rw [if_pos rfl, hi]

theorem asearch_video_none (c : SearchClient) (hv : c._video_searcher = none)
    (net : Net) (params : SearchParams) :
    c.asearch net params "video"
      = (.leaf [], .error (.attributeError "_video_searcher")) := by
  unfold SearchClient.asearch SearchClient.asearchVideo
  rw [if_neg (by decide : ¬ ("video" = "image")), if_pos rfl, hv]

theorem asearch_hybrid_none (c : SearchClient) (hi : c._image_searcher = none)
    (hv : c._video_searcher = none) (net : Net) (params : SearchParams) :
    c.asearch net params "hybrid"
      = (.par (.leaf []) (.leaf []), .error (.attributeError "_image_searcher")) := by
  unfold SearchClient.asearch SearchClient.asearchImage SearchClient.asearchVideo
  rw [if_neg (by decide : ¬ ("hybrid" = "image")),
      if_neg (by decide : ¬ ("hybrid" = "video")), if_pos rfl, hi, hv]

/-- Claim C6: for every input, the Unsplash video strategy performs no
network call on either path and returns the literal string
"Unsplash video search not implemented yet.". -/
theorem unsplash_video_stub (api_key : String) (net : Net) (params : SearchParams) :
    UnsplashVideoSearchStrategy.search api_key net params
      = ([], .pyStr "Unsplash video search not implemented yet.") ∧
    UnsplashVideoSearchStrategy.asearch api_key net params
      = ([], .pyStr "Unsplash video search not implemented yet.") :=
  ⟨rfl, rfl⟩

/-- Claim C4: a content-type tag outside image, video and hybrid makes both
Client.search and Client.asearch raise ValueError with an empty effect
trace, so no network call is attempted, on every client. -/
theorem invalid_content_type_rejected (c : SearchClient) (net : Net)
    (params : SearchParams) (content_type : String)
    (h1 : content_type ≠ "image") (h2 : content_type ≠ "video")
    (h3 : content_type ≠ "hybrid") :
    c.search net params content_type
      = ([], .error (.valueError "Invalid content type")) ∧
    c.asearch net params content_type
      = (.leaf [], .error (.valueError "Invalid content type")) := by
  constructor
  · unfold SearchClient.search
    rw [if_neg h1, if_neg h2, if_neg h3]
  · unfold SearchClient.asearch
    rw [if_neg h1, if_neg h2, if_neg h3]

theorem invalid_content_type_rejected_witness :
    pexelsClientK.search net200 [("query", "cat")] "audio"
      = ([], .error (.valueError "Invalid content type")) ∧
    pexelsClientK.asearch net200 [("query", "cat")] "audio"
      = (.leaf [], .error (.valueError "Invalid content type")) :=
  invalid_content_type_rejected pexelsClientK net200 [("query", "cat")] "audio"
    (by decide) (by decide) (by decide)

/-- Claim C8: each provider factory returns the matching strategy,
constructed with the given API key, for the image and video tags, and
raises ValueError for any other content type. -/
theorem factory_dispatch_and_validation (api_key content_type : String) :
    PixabayFactory.get_search_strategy api_key "image" = .ok (.pixabayImage api_key) ∧
    PixabayFactory.get_search_strategy api_key "video" = .ok (.pixabayVideo api_key) ∧
    UnsplashFactory.get_search_strategy api_key "image" = .ok (.unsplashImage api_key) ∧
    UnsplashFactory.get_search_strategy api_key "video" = .ok (.unsplashVideo api_key) ∧
    PexelsFactory.get_search_strategy api_key "image" = .ok (.pexelsImage api_key) ∧
    PexelsFactory.get_search_strategy api_key "video" = .ok (.pexelsVideo api_key) ∧
    (content_type ≠ "image" → content_type ≠ "video" →
      PixabayFactory.get_search_strategy api_key content_type
        = .error (.valueError "Invalid content type for Pixabay") ∧
      UnsplashFactory.get_search_strategy api_key content_type
        = .error (.valueError "Invalid content type for Unsplash") ∧
      PexelsFactory.get_search_strategy api_key content_type
        = .error (.valueError "Invalid content type for Pexels")) := by
  refine ⟨rfl, rfl, rfl, rfl, rfl, rfl, fun h1 h2 => ⟨?_, ?_, ?_⟩⟩
  · unfold PixabayFactory.get_search_strategy
    rw [if_neg h1, if_neg h2]
  · unfold UnsplashFactory.get_search_strategy
    rw [if_neg h1, if_neg h2]
  · unfold PexelsFactory.get_search_strategy
    rw [if_neg h1, if_neg h2]

theorem factory_dispatch_and_validation_witness :
    PixabayFactory.get_search_strategy "K" "audio"
      = .error (.valueError "Invalid content type for Pixabay") ∧
    UnsplashFactory.get_search_strategy "K" "audio"
      = .error (.valueError "Invalid content type for Unsplash") ∧
    PexelsFactory.get_search_strategy "K" "audio"
      = .error (.valueError "Invalid content type for Pexels") :=
  (factory_dispatch_and_validation "K" "audio").2.2.2.2.2.2 (by decide) (by decide)

/-- Claim C9: constructing a client with an unrecognised provider tag
consults no network oracle and leaves both searcher attributes unset, so
every subsequent search or asearch with tag image, video or hybrid raises
AttributeError to the caller, with no request issued, instead of returning
the failure sentinel. -/
theorem invalid_provider_unusable_client (provider api_key : String)
    (h1 : provider ≠ "pixabay") (h2 : provider ≠ "unsplash")
    (h3 : provider ≠ "pexels") :
    SearchClient.init provider api_key
      = .ok { _api_key := api_key, _image_searcher := none, _video_searcher := none } ∧
    ∀ (net : Net) (params : SearchParams) (content_type : String),
      content_type = "image" ∨ content_type = "video" ∨ content_type = "hybrid" →
      ∃ msg,
        ({ _api_key := api_key, _image_searcher := none, _video_searcher := none }
            : SearchClient).search net params content_type
          = ([], .error (.attributeError msg)) ∧
        (({ _api_key := api_key, _image_searcher := none, _video_searcher := none }
            : SearchClient).asearch net params content_type).2
          = .error (.attributeError msg) ∧
        (({ _api_key := api_key, _image_searcher := none, _video_searcher := none }
            : SearchClient).asearch net params content_type).1.requests = [] := by
  refine ⟨init_other provider api_key h1 h2 h3, fun net params content_type hct => ?_⟩
  rcases hct with rfl | rfl | rfl
  · exact ⟨"_image_searcher",
      search_image_none _ rfl net params,
      by rw [asearch_image_none _ rfl net params],
      by rw [asearch_image_none _ rfl net params]; rfl⟩
  · exact ⟨"_video_searcher",
      search_video_none _ rfl net params,
      by rw [asearch_video_none _ rfl net params],
      by rw [asearch_video_none _ rfl net params]; rfl⟩
  · exact ⟨"_image_searcher",
      search_hybrid_none _ rfl net params,
      by rw [asearch_hybrid_none _ rfl rfl net params],
      by rw [asearch_hybrid_none _ rfl rfl net params]; rfl⟩

theorem invalid_provider_unusable_client_witness :
    SearchClient.init "flickr" "K"
      = .ok { _api_key := "K", _image_searcher := none, _video_searcher := none } ∧
    (∃ msg,
      ({ _api_key := "K", _image_searcher := none, _video_searcher := none }
          : SearchClient).search net200 [("query", "cat")] "image"
        = ([], .error (.attributeError msg)) ∧
      (({ _api_key := "K", _image_searcher := none, _video_searcher := none }
          : SearchClient).asearch net200 [("query", "cat")] "image").2
        = .error (.attributeError msg) ∧
      (({ _api_key := "K", _image_searcher := none, _video_searcher := none }
          : SearchClient).asearch net200 [("query", "cat")] "image").1.requests = []) :=
  ⟨(invalid_provider_unusable_client "flickr" "K" (by decide) (by decide) (by decide)).1,
   (invalid_provider_unusable_client "flickr" "K" (by decide) (by decide) (by decide)).2
     net200 [("query", "cat")] "image" (Or.inl rfl)⟩

/-- Claim C3: for every supported provider, hybrid search and asearch return
a record with exactly the two fields images and videos, holding respectively
the image and the video sub-search result, each independent of the other's
outcome (the network oracle is arbitrary); the blocking path performs the
image search before the video search, so their traces concatenate in that
order. -/
theorem hybrid_two_field_record (provider api_key : String)
    (hp : provider = "pixabay" ∨ provider = "unsplash" ∨ provider = "pexels")
    (c : SearchClient) (hc : SearchClient.init provider api_key = .ok c)
    (net : Net) (params : SearchParams) :
    (∃ i v,
      (c.search net params "image").2 = .ok i ∧
      (c.search net params "video").2 = .ok v ∧
      c.search net params "hybrid"
        = ((c.search net params "image").1 ++ (c.search net params "video").1,
           .ok (.dict [("images", i), ("videos", v)]))) ∧
    (∃ i v,
      (c.asearch net params "image").2 = .ok i ∧
      (c.asearch net params "video").2 = .ok v ∧
      c.asearch net params "hybrid"
        = (.par (c.asearch net params "image").1 (c.asearch net params "video").1,
           .ok (.dict [("images", i), ("videos", v)]))) := by
  obtain ⟨si, sv, hi, hv⟩ :
      ∃ si sv, c._image_searcher = some si ∧ c._video_searcher = some sv := by
    rcases hp with rfl | rfl | rfl
    · rw [init_pixabay] at hc
      injection hc with hc
      subst hc
      exact ⟨_, _, rfl, rfl⟩
    · rw [init_unsplash] at hc
      injection hc with hc
      subst hc
      exact ⟨_, _, rfl, rfl⟩
    · rw [init_pexels] at hc
      injection hc with hc
      subst hc
      exact ⟨_, _, rfl, rfl⟩
  refine ⟨⟨(si.search net params).2, (sv.search net params).2, ?_, ?_, ?_⟩,
          ⟨(si.asearch net params).2, (sv.asearch net params).2, ?_, ?_, ?_⟩⟩
  · rw [search_image_eq c si hi]
  · rw [search_video_eq c sv hv]
  · rw [search_hybrid_eq c si sv hi hv, search_image_eq c si hi,
        search_video_eq c sv hv]
  · rw [asearch_image_eq c si hi]
  · rw [asearch_video_eq c sv hv]
  · rw [asearch_hybrid_eq c si sv hi hv, asearch_image_eq c si hi,
        asearch_video_eq c sv hv]

theorem hybrid_two_field_record_witness :
    SearchClient.init "pexels" "K" = .ok pexelsClientK ∧
    (∃ i v,
      (pexelsClientK.search net200 [("query", "cat")] "image").2 = .ok i ∧
      (pexelsClientK.search net200 [("query", "cat")] "video").2 = .ok v ∧
      pexelsClientK.search net200 [("query", "cat")] "hybrid"
        = ((pexelsClientK.search net200 [("query", "cat")] "image").1
            ++ (pexelsClientK.search net200 [("query", "cat")] "video").1,
           .ok (.dict [("images", i), ("videos", v)]))) :=
  ⟨rfl, (hybrid_two_field_record "pexels" "K" (Or.inr (Or.inr rfl)) pexelsClientK rfl
      net200 [("query", "cat")]).1⟩

/-- Claim C10: hybrid asearch schedules the image and the video sub-search
as two independent tasks joined by gather, so under the cooperative
scheduling model of the specification its wall-clock duration is the
maximum of the two sub-call durations, while the blocking hybrid search
runs them sequentially and its duration is their sum. -/
theorem hybrid_concurrency_duration (provider api_key : String) (c : SearchClient)
    (hc : SearchClient.init provider api_key = .ok c)
    (net : Net) (params : SearchParams) (lat : HttpRequest → Nat) :
    (c.asearch net params "hybrid").1
      = .par (c.asearch net params "image").1 (c.asearch net params "video").1 ∧
    ((c.asearch net params "hybrid").1).duration lat
      = max (((c.asearch net params "image").1).duration lat)
            (((c.asearch net params "video").1).duration lat) ∧
    traceDuration lat (c.search net params "hybrid").1
      = traceDuration lat (c.search net params "image").1
        + traceDuration lat (c.search net params "video").1 := by
  rcases init_searchers provider api_key c hc with ⟨si, sv, hi, hv⟩ | ⟨hi, hv⟩
  · refine ⟨?_, ?_, ?_⟩
    · rw [asearch_hybrid_eq c si sv hi hv, asearch_image_eq c si hi,
          asearch_video_eq c sv hv]
    · rw [asearch_hybrid_eq c si sv hi hv, asearch_image_eq c si hi,
          asearch_video_eq c sv hv]
      rfl
    · rw [search_hybrid_eq c si sv hi hv, search_image_eq c si hi,
          search_video_eq c sv hv]
      exact traceDuration_append lat _ _
  · refine ⟨?_, ?_, ?_⟩
    · rw [asearch_hybrid_none c hi hv, asearch_image_none c hi,
          asearch_video_none c hv]
    · rw [asearch_hybrid_none c hi hv, asearch_image_none c hi,
          asearch_video_none c hv]
      rfl
    · rw [search_hybrid_none c hi, search_image_none c hi, search_video_none c hv]
      rfl

theorem hybrid_concurrency_duration_witness :
    SearchClient.init "pexels" "K" = .ok pexelsClientK ∧
    ((pexelsClientK.asearch net200 [("query", "cat")] "hybrid").1
        = .par (pexelsClientK.asearch net200 [("query", "cat")] "image").1
               (pexelsClientK.asearch net200 [("query", "cat")] "video").1 ∧
     ((pexelsClientK.asearch net200 [("query", "cat")] "hybrid").1).duration (fun _ => 5)
        = max (((pexelsClientK.asearch net200 [("query", "cat")] "image").1).duration
                (fun _ => 5))
              (((pexelsClientK.asearch net200 [("query", "cat")] "video").1).duration
                (fun _ => 5)) ∧
     traceDuration (fun _ => 5) (pexelsClientK.search net200 [("query", "cat")] "hybrid").1
        = traceDuration (fun _ => 5) (pexelsClientK.search net200 [("query", "cat")] "image").1
          + traceDuration (fun _ => 5)
              (pexelsClientK.search net200 [("query", "cat")] "video").1) :=
  ⟨rfl, hybrid_concurrency_duration "pexels" "K" pexelsClientK rfl net200
    [("query", "cat")] (fun _ => 5)⟩

theorem url_of_syncGet (net : Net) (req : HttpRequest) :
    ∀ r ∈ sentRequests (syncGet net req).1, r.url = req.url := by
  intro r hr
  rw [mem_sentRequests_syncGet hr]

theorem url_of_asyncGet (net : Net) (req : HttpRequest) :
    ∀ r ∈ sentRequests (asyncGet net req).1, r.url = req.url := by
  intro r hr
  rw [mem_sentRequests_asyncGet hr]

/-- Claim C5: a client constructed for each supported provider stores, for
each content type in image and video, the matching strategy, and every GET
that a search or asearch call with that tag issues goes to the endpoint of
the documented table. -/
theorem endpoint_table (api_key : String) (net : Net) (params : SearchParams)
    (cpix cuns cpex : SearchClient)
    (h1 : SearchClient.init "pixabay" api_key = .ok cpix)
    (h2 : SearchClient.init "unsplash" api_key = .ok cuns)
    (h3 : SearchClient.init "pexels" api_key = .ok cpex) :
    cpix._image_searcher = some (.pixabayImage api_key) ∧
    (∀ r ∈ sentRequests (cpix.search net params "image").1,
       r.url = "https://pixabay.com/api/") ∧
    (∀ r ∈ (cpix.asearch net params "image").1.requests,
       r.url = "https://pixabay.com/api/") ∧
    cpix._video_searcher = some (.pixabayVideo api_key) ∧
    (∀ r ∈ sentRequests (cpix.search net params "video").1,
       r.url = "https://pixabay.com/api/videos/") ∧
    (∀ r ∈ (cpix.asearch net params "video").1.requests,
       r.url = "https://pixabay.com/api/videos/") ∧
    cuns._image_searcher = some (.unsplashImage api_key) ∧
    (∀ r ∈ sentRequests (cuns.search net params "image").1,
       r.url = "https://api.unsplash.com/search/photos") ∧
    (∀ r ∈ (cuns.asearch net params "image").1.requests,
       r.url = "https://api.unsplash.com/search/photos") ∧
    cpex._image_searcher = some (.pexelsImage api_key) ∧
    (∀ r ∈ sentRequests (cpex.search net params "image").1,
       r.url = "https://api.pexels.com/v1/search") ∧
    (∀ r ∈ (cpex.asearch net params "image").1.requests,
       r.url = "https://api.pexels.com/v1/search") ∧
    cpex._video_searcher = some (.pexelsVideo api_key) ∧
    (∀ r ∈ sentRequests (cpex.search net params "video").1,
       r.url = "https://api.pexels.com/videos/search") ∧
    (∀ r ∈ (cpex.asearch net params "video").1.requests,
       r.url = "https://api.pexels.com/videos/search") := by
  rw [init_pixabay] at h1
  injection h1 with h1
  subst h1
  rw [init_unsplash] at h2
  injection h2 with h2
  subst h2
  rw [init_pexels] at h3
  injection h3 with h3
  subst h3
  refine ⟨rfl, ?_, ?_, rfl, ?_, ?_, rfl, ?_, ?_, rfl, ?_, ?_, rfl, ?_, ?_⟩
  · rw [search_image_eq _ _ rfl net params]
    exact url_of_syncGet net _
  · rw [asearch_image_eq _ _ rfl net params]
    exact url_of_asyncGet net _
  · rw [search_video_eq _ _ rfl net params]
    exact url_of_syncGet net _
  · rw [asearch_video_eq _ _ rfl net params]
    exact url_of_asyncGet net _
  · rw [search_image_eq _ _ rfl net params]
    exact url_of_syncGet net _
  · rw [asearch_image_eq _ _ rfl net params]
    exact url_of_asyncGet net _
  · rw [search_image_eq _ _ rfl net params]
    exact url_of_syncGet net _
  · rw [asearch_image_eq _ _ rfl net params]
    exact url_of_asyncGet net _
  · rw [search_video_eq _ _ rfl net params]
    exact url_of_syncGet net _
  · rw [asearch_video_eq _ _ rfl net params]
    exact url_of_asyncGet net _

theorem endpoint_table_witness :
    SearchClient.init "pexels" "K" = .ok pexelsClientK ∧
    pexelsClientK._image_searcher = some (.pexelsImage "K") ∧
    ∀ r ∈ sentRequests (pexelsClientK.search net200 [("query", "cat")] "image").1,
      r.url = "https://api.pexels.com/v1/search" := by
  obtain ⟨h1, h2⟩ :=
    endpoint_table "K" net200 [("query", "cat")]
      { _api_key := "K", _image_searcher := some (.pixabayImage "K")
        _video_searcher := some (.pixabayVideo "K") }
      { _api_key := "K", _image_searcher := some (.unsplashImage "K")
        _video_searcher := some (.unsplashVideo "K") }
      pexelsClientK rfl rfl rfl
  exact ⟨rfl, h2.2.2.2.2.2.2.2.2.1, h2.2.2.2.2.2.2.2.2.2.1⟩

/-- Claim C1: the authentication shape of every request is provider-specific
and fixed: all four Pixabay call variants carry the API key as the query
parameter key and send no headers; the Unsplash image strategy sends the
header Authorization with value Client-ID followed by the key on both
paths; all four Pexels call variants send the raw key as the Authorization
header value with no scheme prefix.  Moreover a Pexels client with key K
calling search on params {query: cat} with tag image issues exactly one GET
to the Pexels image endpoint, query {query: cat}, header Authorization K,
and returns the parsed JSON body on a 200 response. -/
theorem provider_auth_shapes (api_key : String) (net : Net) (params : SearchParams) :
    ((∀ r ∈ sentRequests (PixabayImageSearchStrategy.search api_key net params).1,
        r.headers = [] ∧ ("key", QVal.s api_key) ∈ r.query) ∧
     (∀ r ∈ sentRequests (PixabayImageSearchStrategy.asearch api_key net params).1,
        r.headers = [] ∧ ("key", QVal.s api_key) ∈ r.query) ∧
     (∀ r ∈ sentRequests (PixabayVideoSearchStrategy.search api_key net params).1,
        r.headers = [] ∧ ("key", QVal.s api_key) ∈ r.query) ∧
     (∀ r ∈ sentRequests (PixabayVideoSearchStrategy.asearch api_key net params).1,
        r.headers = [] ∧ ("key", QVal.s api_key) ∈ r.query) ∧
     (∀ r ∈ sentRequests (UnsplashImageSearchStrategy.search api_key net params).1,
        r.headers = [("Authorization", "Client-ID " ++ api_key)]) ∧
     (∀ r ∈ sentRequests (UnsplashImageSearchStrategy.asearch api_key net params).1,
        r.headers = [("Authorization", "Client-ID " ++ api_key)]) ∧
     (∀ r ∈ sentRequests (PexelsImageSearchStrategy.search api_key net params).1,
        r.headers = [("Authorization", api_key)]) ∧
     (∀ r ∈ sentRequests (PexelsImageSearchStrategy.asearch api_key net params).1,
        r.headers = [("Authorization", api_key)]) ∧
     (∀ r ∈ sentRequests (PexelsVideoSearchStrategy.search api_key net params).1,
        r.headers = [("Authorization", api_key)]) ∧
     (∀ r ∈ sentRequests (PexelsVideoSearchStrategy.asearch api_key net params).1,
        r.headers = [("Authorization", api_key)])) ∧
    (∀ (c : SearchClient) (j : Json),
      SearchClient.init "pexels" api_key = .ok c →
      net { url := "https://api.pexels.com/v1/search"
            query := [("query", QVal.s "cat")]
            headers := [("Authorization", api_key)] } = .resp 200 (some j) →
      c.search net [("query", "cat")] "image"
        = ([.get { url := "https://api.pexels.com/v1/search"
                   query := [("query", QVal.s "cat")]
                   headers := [("Authorization", api_key)] }],
           .ok (.json j))) := by
  constructor
  · refine ⟨?_, ?_, ?_, ?_, ?_, ?_, ?_, ?_, ?_, ?_⟩ <;>
      intro r hr
    · rw [mem_sentRequests_syncGet hr]
      exact ⟨rfl, List.mem_cons_self _ _⟩
    · rw [mem_sentRequests_asyncGet hr]
      exact ⟨rfl, List.mem_cons_self _ _⟩
    · rw [mem_sentRequests_syncGet hr]
      exact ⟨rfl, List.mem_cons_self _ _⟩
    · rw [mem_sentRequests_asyncGet hr]
      exact ⟨rfl, List.mem_cons_self _ _⟩
    · rw [mem_sentRequests_syncGet hr]
    · rw [mem_sentRequests_asyncGet hr]
    · rw [mem_sentRequests_syncGet hr]
    · rw [mem_sentRequests_asyncGet hr]
    · rw [mem_sentRequests_syncGet hr]
    · rw [mem_sentRequests_asyncGet hr]
  · intro c j hc hnet
    rw [init_pexels] at hc
    injection hc with hc
    subst hc
    rw [search_image_eq _ (.pexelsImage api_key) rfl net [("query", "cat")]]
    have hstep : Strategy.search (.pexelsImage api_key) net [("query", "cat")]
        = ([.get { url := "https://api.pexels.com/v1/search"
                   query := [("query", QVal.s "cat")]
                   headers := [("Authorization", api_key)] }], .json j) := by
      show syncGet net
          { url := "https://api.pexels.com/v1/search"
            query := [("query", QVal.s "cat")]
            headers := [("Authorization", api_key)] } = _
      unfold syncGet
      rw [hnet]
      dsimp only
      rw [if_neg (by decide : ¬ (400 ≤ 200 ∧ 200 < 600))]
    rw [hstep]

theorem provider_auth_shapes_witness :
    SearchClient.init "pexels" "K" = .ok pexelsClientK ∧
    pexelsClientK.search net200 [("query", "cat")] "image"
      = ([.get { url := "https://api.pexels.com/v1/search"
                 query := [("query", QVal.s "cat")]
                 headers := [("Authorization", "K")] }],
         .ok (.json (Json.obj []))) :=
  ⟨rfl, (provider_auth_shapes "K" net200 [("query", "cat")]).2 pexelsClientK
    (Json.obj []) rfl rfl⟩

theorem syncGet_err_collapsed (m : String) (req : HttpRequest) :
    (syncGet (fun _ => .err m) req).2 = .pyNone ∧
    ∃ d, .printed d ∈ (syncGet (fun _ => .err m) req).1 :=
  ⟨rfl, ⟨"Error: " ++ m, by simp [syncGet]⟩⟩

theorem syncGet_http_collapsed (s : Nat) (b : Option Json) (req : HttpRequest)
    (h4 : 400 ≤ s) (h6 : s < 600) :
    (syncGet (fun _ => .resp s b) req).2 = .pyNone ∧
    ∃ d, .printed d ∈ (syncGet (fun _ => .resp s b) req).1 := by
  have hq : syncGet (fun _ => NetOutcome.resp s b) req
      = ([.get req, .printed ("HTTP Error: " ++ toString s)], .pyNone) := by
    unfold syncGet
    dsimp only
    rw [if_pos ⟨h4, h6⟩]
  rw [hq]
  exact ⟨rfl, ⟨"HTTP Error: " ++ toString s, by simp⟩⟩

theorem syncGet_malformed_collapsed (s : Nat) (req : HttpRequest)
    (h : ¬ (400 ≤ s ∧ s < 600)) :
    (syncGet (fun _ => .resp s none) req).2 = .pyNone ∧
    ∃ d, .printed d ∈ (syncGet (fun _ => .resp s none) req).1 := by
  have hq : syncGet (fun _ => NetOutcome.resp s none) req
      = ([.get req, .printed "Error: malformed body"], .pyNone) := by
    unfold syncGet
    dsimp only
    rw [if_neg h]
  rw [hq]
  exact ⟨rfl, ⟨"Error: malformed body", by simp⟩⟩

theorem asyncGet_err_collapsed (m : String) (req : HttpRequest) :
    (asyncGet (fun _ => .err m) req).2 = .pyNone ∧
    ∃ d, .printed d ∈ (asyncGet (fun _ => .err m) req).1 := by
  unfold asyncGet
  by_cases hg : req.hasNoneParam = true
  · rw [if_pos hg]
    exact ⟨rfl, ⟨"Error: Invalid variable type", by simp⟩⟩
  · rw [if_neg hg]
    exact ⟨rfl, ⟨"Client Error: " ++ m, by simp⟩⟩

theorem asyncGet_http_collapsed (s : Nat) (b : Option Json) (req : HttpRequest)
    (h4 : 400 ≤ s) :
    (asyncGet (fun _ => .resp s b) req).2 = .pyNone ∧
    ∃ d, .printed d ∈ (asyncGet (fun _ => .resp s b) req).1 := by
  unfold asyncGet
  by_cases hg : req.hasNoneParam = true
  · rw [if_pos hg]
    exact ⟨rfl, ⟨"Error: Invalid variable type", by simp⟩⟩
  · rw [if_neg hg]
    dsimp only
    rw [if_pos h4]
    exact ⟨rfl, ⟨"Client Error: " ++ toString s, by simp⟩⟩

theorem asyncGet_malformed_collapsed (s : Nat) (req : HttpRequest)
    (h : ¬ 400 ≤ s) :
    (asyncGet (fun _ => .resp s none) req).2 = .pyNone ∧
    ∃ d, .printed d ∈ (asyncGet (fun _ => .resp s none) req).1 := by
  unfold asyncGet
  by_cases hg : req.hasNoneParam = true
  · rw [if_pos hg]
    exact ⟨rfl, ⟨"Error: Invalid variable type", by simp⟩⟩
  · rw [if_neg hg]
    dsimp only
    rw [if_neg h]
    exact ⟨rfl, ⟨"Error: malformed body", by simp⟩⟩

theorem implemented_shape (st : Strategy) (himp : st.implemented)
    (params : SearchParams) :
    ∃ rs ra, (∀ net : Net, st.search net params = syncGet net rs) ∧
             (∀ net : Net, st.asearch net params = asyncGet net ra) := by
  cases st with
  | pixabayImage k => exact ⟨_, _, fun net => rfl, fun net => rfl⟩
  | pixabayVideo k => exact ⟨_, _, fun net => rfl, fun net => rfl⟩
  | unsplashImage k => exact ⟨_, _, fun net => rfl, fun net => rfl⟩
  | unsplashVideo k => exact himp.elim
  | pexelsImage k => exact ⟨_, _, fun net => rfl, fun net => rfl⟩
  | pexelsVideo k => exact ⟨_, _, fun net => rfl, fun net => rfl⟩

/-- Claim C2 as frozen is false on the code: a 304 response carrying a
parseable JSON body has a non-2xx status, yet raise_for_status does not
raise below 400, so the Pixabay image strategy returns the parsed body,
not the None sentinel. -/
theorem nonTwoxx_not_collapsed : ¬ allNonTwoxxCollapse := by
  intro h
  have h2 := (h (.pixabayImage "K") trivial 304 (some (Json.obj [])) []
    (by decide)).1
  have h3 : (Strategy.search (.pixabayImage "K")
      (fun _ => .resp 304 (some (Json.obj []))) []).2 = .json (Json.obj []) := rfl
  rw [h3] at h2
  exact PyObj.noConfusion h2

/-- Claim C2 (amended): for every implemented strategy and both call paths,
every failure the code treats as an execution failure — an HTTP status in
the 400..599 range (the statuses raise_for_status raises on), a transport
error, or a malformed response body — is caught inside the strategy, a
diagnostic is printed, and the None sentinel is returned; no such failure
escapes to the caller as a raised error (the strategies return plain
values, never exceptions).  The frozen claim said every non-2xx status is
collapsed; a 3xx status with a parseable body is instead returned as a
success, see the counterexample theorem. -/
theorem execution_failures_collapsed (st : Strategy) (himp : st.implemented)
    (params : SearchParams) :
    (∀ m : String,
      ((st.search (fun _ => .err m) params).2 = .pyNone ∧
       ∃ d, .printed d ∈ (st.search (fun _ => .err m) params).1) ∧
      ((st.asearch (fun _ => .err m) params).2 = .pyNone ∧
       ∃ d, .printed d ∈ (st.asearch (fun _ => .err m) params).1)) ∧
    (∀ (s : Nat) (b : Option Json), 400 ≤ s → s < 600 →
      ((st.search (fun _ => .resp s b) params).2 = .pyNone ∧
       ∃ d, .printed d ∈ (st.search (fun _ => .resp s b) params).1) ∧
      ((st.asearch (fun _ => .resp s b) params).2 = .pyNone ∧
       ∃ d, .printed d ∈ (st.asearch (fun _ => .resp s b) params).1)) ∧
    (∀ s : Nat, s < 400 →
      ((st.search (fun _ => .resp s none) params).2 = .pyNone ∧
       ∃ d, .printed d ∈ (st.search (fun _ => .resp s none) params).1) ∧
      ((st.asearch (fun _ => .resp s none) params).2 = .pyNone ∧
       ∃ d, .printed d ∈ (st.asearch (fun _ => .resp s none) params).1)) := by
  obtain ⟨rs, ra, hs, ha⟩ := implemented_shape st himp params
  refine ⟨fun m => ⟨?_, ?_⟩, fun s b h4 h6 => ⟨?_, ?_⟩, fun s hlt => ⟨?_, ?_⟩⟩
  · rw [hs]
    exact syncGet_err_collapsed m rs
  · rw [ha]
    exact asyncGet_err_collapsed m ra
  · rw [hs]
    exact syncGet_http_collapsed s b rs h4 h6
  · rw [ha]
    exact asyncGet_http_collapsed s b ra h4
  · rw [hs]
    exact syncGet_malformed_collapsed s rs (by omega)
  · rw [ha]
    exact asyncGet_malformed_collapsed s ra (by omega)

theorem execution_failures_collapsed_witness :
    Strategy.implemented (.pexelsImage "K") ∧
    ((Strategy.search (.pexelsImage "K") (fun _ => .err "connection reset")
        [("query", "cat")]).2 = .pyNone ∧
     ∃ d, .printed d ∈ (Strategy.search (.pexelsImage "K")
        (fun _ => .err "connection reset") [("query", "cat")]).1) :=
  ⟨by trivial,
   ((execution_failures_collapsed (.pexelsImage "K") (by trivial)
      [("query", "cat")]).1 "connection reset").1⟩

/-- Claim C7 as frozen is false on the code: the Pixabay asearch keeps only
the query entry of the caller's mapping; with params
{query: cat, page: 2} the issued request carries no page parameter at all. -/
theorem params_not_passed_through : ¬ allParamsPassedThrough := by
  intro h
  have h2 := (h (.pixabayImage "K") trivial [("query", "cat"), ("page", "2")]
      net200 "page" "2" (by simp)).2
  have h3 : sentRequests (Strategy.asearch (.pixabayImage "K") net200
      [("query", "cat"), ("page", "2")]).1
      = [{ url := "https://pixabay.com/api/"
           query := [("key", QVal.s "K"), ("q", QVal.s "cat")]
           headers := [] }] := rfl
  rw [h3] at h2
  have h4 := h2 _ (List.mem_singleton.mpr rfl)
  rcases h4 with h4 | ⟨h4, -⟩
  · exact absurd h4 (by decide)
  · exact absurd h4 (by decide)

/-- Claim C7 (amended): the Unsplash image strategy and both Pexels
strategies pass the caller's params mapping through unchanged as the
request's query parameters, on both call paths.  The Pixabay strategies do
not: their blocking search sends only the parameters key and q, with the
entire caller mapping as the value of q, and their asearch sends only key
and q, where q keeps just the mapping's query entry and every other entry
is dropped. -/
theorem params_passthrough_amended (api_key : String) (net : Net)
    (params : SearchParams) :
    (∀ r ∈ sentRequests (UnsplashImageSearchStrategy.search api_key net params).1,
       r.query = params.map fun p => (p.1, QVal.s p.2)) ∧
    (∀ r ∈ sentRequests (UnsplashImageSearchStrategy.asearch api_key net params).1,
       r.query = params.map fun p => (p.1, QVal.s p.2)) ∧
    (∀ r ∈ sentRequests (PexelsImageSearchStrategy.search api_key net params).1,
       r.query = params.map fun p => (p.1, QVal.s p.2)) ∧
    (∀ r ∈ sentRequests (PexelsImageSearchStrategy.asearch api_key net params).1,
       r.query = params.map fun p => (p.1, QVal.s p.2)) ∧
    (∀ r ∈ sentRequests (PexelsVideoSearchStrategy.search api_key net params).1,
       r.query = params.map fun p => (p.1, QVal.s p.2)) ∧
    (∀ r ∈ sentRequests (PexelsVideoSearchStrategy.asearch api_key net params).1,
       r.query = params.map fun p => (p.1, QVal.s p.2)) ∧
    (∀ r ∈ sentRequests (PixabayImageSearchStrategy.search api_key net params).1,
       r.query = [("key", QVal.s api_key), ("q", QVal.m params)]) ∧
    (∀ r ∈ sentRequests (PixabayVideoSearchStrategy.search api_key net params).1,
       r.query = [("key", QVal.s api_key), ("q", QVal.m params)]) ∧
    (∀ r ∈ sentRequests (PixabayImageSearchStrategy.asearch api_key net params).1,
       r.query = [("key", QVal.s api_key), ("q", qvalOfGet (params.lookup "query"))]) ∧
    (∀ r ∈ sentRequests (PixabayVideoSearchStrategy.asearch api_key net params).1,
       r.query = [("key", QVal.s api_key), ("q", qvalOfGet (params.lookup "query"))]) := by
  refine ⟨?_, ?_, ?_, ?_, ?_, ?_, ?_, ?_, ?_, ?_⟩ <;> intro r hr
  · rw [mem_sentRequests_syncGet hr]
  · rw [mem_sentRequests_asyncGet hr]
  · rw [mem_sentRequests_syncGet hr]
  · rw [mem_sentRequests_asyncGet hr]
  · rw [mem_sentRequests_syncGet hr]
  · rw [mem_sentRequests_asyncGet hr]
  · rw [mem_sentRequests_syncGet hr]
  · rw [mem_sentRequests_syncGet hr]
  · rw [mem_sentRequests_asyncGet hr]
  · rw [mem_sentRequests_asyncGet hr]

theorem params_passthrough_amended_witness :
    ({ url := "https://api.pexels.com/v1/search"
       query := [("query", QVal.s "cat"), ("page", QVal.s "2")]
       headers := [("Authorization", "K")] } : HttpRequest).query
      = ([("query", "cat"), ("page", "2")] : SearchParams).map
          (fun p => (p.1, QVal.s p.2)) :=
  (params_passthrough_amended "K" net200 [("query", "cat"), ("page", "2")]).2.2.1
    _ (List.mem_singleton.mpr rfl)
